import Mathlib

/-!
Shallow embedding of the filter-dispatch engine of proxsmtpd (src/src/proxsmtpd.c).

C strings are modelled as `List Char`: the characters before the terminating
null byte (no interior null).  Machine-level buffers of fixed capacity are
modelled through the BSD `strlcat` size discipline with the literal capacity
the source passes (256 for the rejection-reason accumulator, proxsmtpd.c:786).
The sp framework (smtppass.c) is not part of src/; the few framework
operations a claim depends on are modelled from the spec and say so in their
doc comment.
-/

/-- C `isspace` in the default locale: space, tab, newline, vertical tab,
form feed, carriage return. -/
def isspaceC (c : Char) : Bool :=
  c == ' ' || c == '\t' || c == '\n' || c == Char.ofNat 11 || c == Char.ofNat 12 || c == '\r'

/-- BSD `strlcat(dst, src, size)` (used by proxsmtpd.c via stringx): appends
`src` to `dst` keeping the total payload below `size`, always leaving the
destination null-terminated when it was.  If `dst` already fills the buffer
nothing is appended. -/
def strlcat (dst src : List Char) (size : Nat) : List Char :=
  if size ≤ dst.length then dst else dst ++ src.take (size - dst.length - 1)

/-- Modelled from the spec: `trim_start` (stringx.c, not under src/) removes
leading whitespace and returns a pointer to the first non-whitespace char. -/
def trim_start (l : List Char) : List Char := l.dropWhile isspaceC

/-- Modelled from the spec: `trim_end` (stringx.c, not under src/) removes
trailing whitespace in place. -/
def trim_end (l : List Char) : List Char := (l.reverse.dropWhile isspaceC).reverse

/-- The run of trailing whitespace of `data`, i.e. the characters the
backward walk of proxsmtpd.c:1032-1038 steps over (in reverse order). -/
def wsSuffix (data : List Char) : List Char := data.reverse.takeWhile isspaceC

/-- Whether the backward walk of proxsmtpd.c:1032-1038 saw a newline among
the trailing whitespace (the `newline` flag). -/
def sawNewline (data : List Char) : Bool := (wsSuffix data).contains '\n'

/-- C `strrchr(l, '\n')` returned as the suffix of `l` that starts at the
last newline, or `none` when `l` has no newline (proxsmtpd.c:1046). -/
def strrchrNl : List Char → Option (List Char)
  | [] => none
  | c :: rest =>
    match strrchrNl rest with
    | some s => some s
    | none => if c == '\n' then some (c :: rest) else none

/-- Body of `buffer_reject_message` (proxsmtpd.c:1040-1068): the value of the
accumulator after the `if(t > data)` block, before the final newline append.
`data.length - (wsSuffix data).length` is the offset of the `t` cursor after
the backward walk; when the `newline` flag is set the chunk is truncated
there (proxsmtpd.c:1043-1044).  The test at proxsmtpd.c:1055 reads
`buf[strlen(buf) - 1]`; with an empty `buf` that read is out of bounds in C
(see `brm_reads_before_buf`), but whatever byte it yields the resulting
accumulator is empty either way, so the model's `getLast?` test is
behaviourally faithful. -/
def brmBody (data buf : List Char) : List Char :=
  if 0 < data.length - (wsSuffix data).length then
    match strrchrNl (if sawNewline data then
        data.take (data.length - (wsSuffix data).length) else data) with
    | none =>
      strlcat (if buf.getLast? == some '\n' then [] else buf)
        (trim_start (if sawNewline data then
          data.take (data.length - (wsSuffix data).length) else data)) 256
    | some s => strlcat [] (trim_start s) 256
  else buf

/-- proxsmtpd.c:1026-1073 `buffer_reject_message(data, buf, buflen)` with
`buflen = 256`, the capacity both call sites pass (proxsmtpd.c:561, 944):
fold one null-terminated stderr chunk into the rejection-reason
accumulator.  After the main block a single newline is appended whenever the
chunk's trailing whitespace contained one (proxsmtpd.c:1071-1072). -/
def buffer_reject_message (data buf : List Char) : List Char :=
  if sawNewline data then strlcat (brmBody data buf) ['\n'] 256
  else brmBody data buf

/-- The accumulator both pump loops start from: `memset(ebuf, 0, sizeof(ebuf))`
(proxsmtpd.c:505 and 791), i.e. the empty C string. -/
def ebufInit : List Char := []

/-- Folding a whole sequence of stderr chunks into the accumulator, in
arrival order, starting from the zeroed buffer. -/
def brmFold (chunks : List (List Char)) : List Char :=
  chunks.foldl (fun b d => buffer_reject_message d b) ebufInit

/-- Instrumentation of `buffer_reject_message`: true iff on this call control
reaches the test `buf[strlen(buf) - 1] == '\n'` (proxsmtpd.c:1055) while
`strlen(buf) = 0`, i.e. iff that read falls before the start of the
accumulator.  The guards mirror the source exactly: the read executes
whenever the cursor stopped inside the chunk (`t > data`, proxsmtpd.c:1041)
and the possibly truncated chunk has no embedded newline
(proxsmtpd.c:1046-1047). -/
def brm_reads_before_buf (data buf : List Char) : Bool :=
  if 0 < data.length - (wsSuffix data).length then
    match strrchrNl (if sawNewline data then
        data.take (data.length - (wsSuffix data).length) else data) with
    | none => buf.isEmpty
    | some _ => false
  else false

/-- proxsmtpd.c:1018-1024 `final_reject_message`: an empty accumulator is
replaced by the generic reason, otherwise trailing whitespace is trimmed. -/
def final_reject_message (buf : List Char) : List Char :=
  if buf = [] then ("Content Rejected").toList else trim_end buf

/-- Split a character list at every newline; models the `strsep(&r, "\n")`
loop of proxsmtpd.c:698-700 (and the line structure of a byte stream). -/
def splitNl : List Char → List (List Char)
  | [] => [[]]
  | c :: rest =>
    if c == '\n' then [] :: splitNl rest
    else
      match splitNl rest with
      | [] => [[c]]
      | t :: ts => (c :: t) :: ts

/-- The reference notion used by the claim about the accumulator, written
from the claim's words for comparison: the last non-empty line among the
lines of the stream completed by a newline. -/
def lastCompletedNonEmptyLine (stream : List Char) : Option (List Char) :=
  ((splitNl stream).dropLast.filter (fun l => !l.isEmpty)).getLast?

/-! SMTP relay filter (`process_smtp_command`, proxsmtpd.c:640-765). -/

/-- proxsmtpd.c:626 `char buf[4096]`: the reply buffer of `smtp_command`. -/
def smtp_reply_bufsize : Nat := 4096

/-- proxsmtpd.c:630: `recv(s, buf, sizeof buf, 0)` asks for the full buffer
size, so it may return up to 4096 bytes. -/
def smtp_recv_count : Nat := smtp_reply_bufsize

/-- proxsmtpd.c:630-631: when `n` reply bytes are pending, recv returns
`t = min n smtp_recv_count` and the code then executes `buf[t] = '\0'`;
this is the index of that store. -/
def null_term_write_index (n : Nat) : Nat := min n smtp_recv_count

/-- Whether the store `buf[i] = '\0'` of proxsmtpd.c:631 lands inside the
4096-byte buffer. -/
def term_write_in_bounds (n : Nat) : Bool := null_term_write_index n < smtp_reply_bufsize

/-- Models `strncmp(buf, resp, strlen(resp)) == 0` (proxsmtpd.c:634): the
reply starts with the expected response prefix. -/
def respMatches (resp rep : List Char) : Bool := decide (rep.take resp.length = resp)

/-- proxsmtpd.c:624-638 `smtp_command(s, data, resp, resp_data)`, abstracted
over the network: `reply` is the oracle for what `recv` yields (`none` when
the send fails or recv returns no data).  Result is `(r, captured)` with
`r = 0` exactly when a reply arrived and matched `resp` (or no `resp` was
required), and `captured` the full reply text whenever one arrived. -/
def smtp_command (resp : Option (List Char)) (reply : Option (List Char)) :
    Int × Option (List Char) :=
  match reply with
  | none => (-1, none)
  | some rep =>
    ((match resp with
      | none => 0
      | some p => if respMatches p rep then 0 else -1), some rep)

/-- proxsmtpd.c:728-731: read the cache file in chunks of `sizeof(buf) = 4096`
bytes until read returns 0, sending each chunk; the value is the
concatenation of the bytes put on the socket. -/
def sendCache (file : List Char) : List Char :=
  if _h : file = [] then []
  else file.take 4096 ++ sendCache (file.drop 4096)
termination_by file.length
decreasing_by
  simp only [List.length_drop]
  have := List.length_pos.mpr _h
  omega

/-- proxsmtpd.c:733: the terminator actually sent after the cache file,
`snprintf(str, sizeof str, ".\r\n")`. -/
def dotTerminator : List Char := ['.', '\r', '\n']

/-- The terminator named by the spec, `"\r\n.\r\n"`. -/
def crlfDotCrlf : List Char := ['\r', '\n', '.', '\r', '\n']

/-- A carriage-return line-feed pair. -/
def crlf : List Char := ['\r', '\n']

/-- Everything `process_smtp_command` puts on the socket between the `354`
acknowledgement of DATA and the dialogue that follows the terminator
(proxsmtpd.c:723-734): the streamed cache file, then `".\r\n"`. -/
def smtpDataPhase (file : List Char) : List Char := sendCache file ++ dotTerminator

/-! Exit-status translation shared by the pipe and file dispatches
(proxsmtpd.c:966-1013 and 576-619). -/

/-- Status of a reaped child, as decoded by the C macros: `exited c` is a
normal exit with code `c` (WIFEXITED true), `signaled s` a termination by
signal `s` (WIFEXITED false).  The raw status 0 decodes as `exited 0`. -/
inductive ChildStatus where
  | exited (code : Nat)
  | signaled (sig : Nat)
deriving DecidableEq

/-- The WIFEXITED macro on the modelled status (proxsmtpd.c:967). -/
def WIFEXITED : ChildStatus → Bool
  | .exited _ => true
  | .signaled _ => false

/-- The WEXITSTATUS macro on the modelled status (proxsmtpd.c:976). -/
def WEXITSTATUS : ChildStatus → Nat
  | .exited c => c
  | .signaled _ => 0

/-- Status strings logged by the dispatcher. -/
def strFILTERED : List Char := ("FILTERED").toList

/-- The status string logged on every error exit path (proxsmtpd.c:1012-1013). -/
def strFILTER_ERROR : List Char := ("FILTER-ERROR").toList

/-- The status string of reject mode (proxsmtpd.c:235, 250). -/
def strREJECTED : List Char := ("REJECTED").toList

/-- Outcome of the dispatch tail after the child was reaped: the return
value, whether `sp_done_data` was called and with which header, whether
`sp_fail_data` was called and with which reason, and the `status=` value
logged. -/
structure ExitTranslation where
  ret : Int
  doneHeader : Option (Option (List Char))
  failReply : Option (List Char)
  statusLog : List Char
deriving DecidableEq

/-- proxsmtpd.c:966-1013 (identically 576-619 in file mode): translation of
the reaped child status into the SMTP outcome.  `fwOk` models whether the
framework call made on that branch (`sp_done_data` / `sp_fail_data`)
succeeds; when it fails the dispatch returns -1 and the cleanup path logs
`status=FILTER-ERROR` instead (proxsmtpd.c:1012-1013). -/
def dispatch_exit (st : ChildStatus) (ebuf : List Char) (header : Option (List Char))
    (fwOk : Bool) : ExitTranslation :=
  if WIFEXITED st = false then
    ⟨-1, none, none, strFILTER_ERROR⟩
  else if WEXITSTATUS st = 0 then
    if fwOk then ⟨0, some header, none, strFILTERED⟩
    else ⟨-1, some header, none, strFILTER_ERROR⟩
  else
    if fwOk then ⟨0, none, some (final_reject_message ebuf), final_reject_message ebuf⟩
    else ⟨-1, none, some (final_reject_message ebuf), strFILTER_ERROR⟩

/-! Dispatcher callbacks (proxsmtpd.c:231-288). -/

/-- The configured filter type (proxsmtpd.c:77-82). -/
inductive FilterType where
  | pipe
  | file
  | smtp
  | reject
deriving DecidableEq

/-- The `pxstate_t` configuration record (proxsmtpd.c:61-71); `directory` is
irrelevant to the claims and omitted. -/
structure PxState where
  filter_type : FilterType
  command : Option (List Char)
  reject : List Char
  timeout : Nat
  header : Option (List Char)

/-- Modelled from the spec: `sp_done_data(ctx, header)` (sp framework, not
under src/) commits the spooled body to the server with the optional header
line inserted into the delivered message. -/
def insertHeader (header : Option (List Char)) (body : List Char) : List Char :=
  match header with
  | none => body
  | some h => h ++ '\n' :: body

/-- Observable outcome of `cb_check_pre`: return value, the `status=` value
logged, and the reply `sp_fail_msg` was asked to send. -/
structure PreResult where
  ret : Int
  statusLog : Option (List Char)
  failReply : Option (List Char)
deriving DecidableEq

/-- proxsmtpd.c:231-242 `cb_check_pre`: in reject mode log `status=REJECTED`
and fail the pending command with the configured reject response, returning
0, or -1 when delivering the failure reply fails (`failOk` models that);
otherwise continue with 1. -/
def cb_check_pre (st : PxState) (failOk : Bool) : PreResult :=
  if st.filter_type = .reject then
    if failOk then ⟨0, some strREJECTED, some st.reject⟩
    else ⟨-1, some strREJECTED, some st.reject⟩
  else ⟨1, none, none⟩

/-- Observable outcome of `cb_check_data` (proxsmtpd.c:244-288).
`rejectPath` carries the return value, logged status and the reply given to
`sp_fail_data`; `startError` is the -1 return when `sp_start_data` fails;
`bypass` is the no-filter-command path (DATA accepted, warning logged, body
spooled, delivery committed with the value carried); `delegate` marks the
hand-off to `process_pipe_command` / `process_smtp_command` /
`process_file_command`, modelled separately. -/
inductive CheckData where
  | rejectPath (ret : Int) (statusLog : List Char) (failReply : List Char)
  | startError
  | bypass (warned : Bool) (cached : Bool) (delivered : List Char)
  | delegate (ft : FilterType)
deriving DecidableEq

/-- proxsmtpd.c:244-288 `cb_check_data`.  `failOk` models whether
`sp_fail_data` succeeds, `startOk` whether `sp_start_data` succeeds, and
`body` is the message body the client streams after DATA is accepted. -/
def cb_check_data (st : PxState) (failOk startOk : Bool) (body : List Char) : CheckData :=
  if st.filter_type = .reject then
    .rejectPath (if failOk then 0 else -1) strREJECTED st.reject
  else if startOk = false then .startError
  else
    match st.command with
    | none => .bypass true true (insertHeader st.header body)
    | some _ => .delegate st.filter_type

/-! Pipe pump input path (proxsmtpd.c:835-887). -/

/-- State of the input (write-to-child) leg of the pipe pump: the chunks the
framework still has to hand out via `sp_read_data`, the current buffer
cursor `(ibuf, ilen)`, whether `infd` is still open, and the `icount`
counter. -/
structure PumpIn where
  source : List (List Char)
  ibuf : List Char
  infdOpen : Bool
  icount : Nat
deriving DecidableEq

/-- Result of the `write(infd, ibuf, ilen)` call, as seen by the error
handling of proxsmtpd.c:858-886. -/
inductive WriteOutcome where
  | wrote (n : Nat)
  | epipe
  | eagain
  | eintr
  | otherErr
deriving DecidableEq

/-- proxsmtpd.c:855-887: one write to the child's stdin and its error
handling.  `none` models `RETURN(-1)`.  On `EPIPE` the source is drained to
completion (`while(sp_read_data(sp, &ibuf) > 0);`, proxsmtpd.c:866-867) and
`infd` is closed; on `EAGAIN`/`EINTR` nothing changes and the outer loop
retries; any other error fails the dispatch. -/
def input_write (st : PumpIn) (w : WriteOutcome) : Option PumpIn :=
  match w with
  | .wrote n => some { st with icount := st.icount + n, ibuf := st.ibuf.drop n }
  | .epipe => some { st with source := [], infdOpen := false }
  | .eagain => some st
  | .eintr => some st
  | .otherErr => none

/-- proxsmtpd.c:835-887: the whole input path of one loop iteration with
`infd` writable: refill the cursor from the framework when it is empty
(EOF closes `infd`), then write. -/
def input_step (st : PumpIn) (w : WriteOutcome) : Option PumpIn :=
  if st.ibuf = [] then
    match st.source with
    | [] => some { st with infdOpen := false }
    | chunk :: rest => input_write { st with ibuf := chunk, source := rest } w
  else input_write st w

/-! Reaper (proxsmtpd.c:1075-1108). -/

/-- What one poll iteration of `wait_process` observes: `reaped st` is
`waitpid(pid, status, WNOHANG)` returning the pid with decoded status `st`;
`noChange alive` is waitpid returning 0, with `alive` the verdict of the
zero-signal `kill(pid, 0)` probe (false = ESRCH, no such process);
`errChild` is waitpid failing with ECHILD or ESRCH; `errOther` any other
waitpid error. -/
inductive PollRes where
  | reaped (st : ChildStatus)
  | noChange (alive : Bool)
  | errChild
  | errOther
deriving DecidableEq

/-- Result of `wait_process`: success carries the value of `*status`
(initialized to 0 = `exited 0` and only overwritten by an actual reap),
`fatal` is the -1 return on an unexpected waitpid error, `timeout` the -1
return when the poll budget runs out. -/
inductive WaitRes where
  | ok (status : ChildStatus)
  | fatal
  | timeout
deriving DecidableEq

/-- proxsmtpd.c:1075-1108 `wait_process(sp, pid, &status)` against an oracle
list of poll observations; the budget is `timeout.tv_sec * (1000 / POLL_TIME)`
polls (proxsmtpd.c:1078).  An exhausted oracle behaves as a still-running
child. -/
def wait_process : Nat → List PollRes → WaitRes
  | 0, _ => .timeout
  | Nat.succ b, polls =>
    match polls.headD (.noChange true) with
    | .reaped st => .ok st
    | .noChange true => wait_process b polls.tail
    | .noChange false => .ok (.exited 0)
    | .errChild => .ok (.exited 0)
    | .errOther => .fatal

/-- The poll budget of `wait_process` for a configured timeout in seconds:
`timeout.tv_sec * (1000 / POLL_TIME)` with `POLL_TIME = 20`
(proxsmtpd.c:104, 1078). -/
def wait_budget (timeoutSec : Nat) : Nat := timeoutSec * (1000 / 20)

/-! RCPT loop of the SMTP relay filter (proxsmtpd.c:698-715). -/

/-- The `"250"` acceptance response prefix. -/
def r250 : List Char := ['2', '5', '0']

/-- proxsmtpd.c:701: the line sent for one recipient token,
`snprintf(str, sizeof str, "RCPT TO: %s\r\n", token)`. -/
def rcptLine (tok : List Char) : List Char := ("RCPT TO: ").toList ++ tok ++ ['\r', '\n']

/-- Outcome of the RCPT loop: all recipients accepted (with the lines that
were sent), a clean rejection (lines sent so far and the trimmed reason
given to `sp_fail_data` and the log), or an infrastructure error (no reply
captured). -/
inductive RcptOutcome where
  | accepted (sent : List (List Char))
  | rejected (sent : List (List Char)) (reason : List Char)
  | infra (sent : List (List Char))
deriving DecidableEq

/-- proxsmtpd.c:698-715: the loop over recipient tokens.  `reps` is the
oracle of downstream replies, one per RCPT command attempted (`none` = send
or recv failure).  A captured reply that does not start with `250` stops the
loop: the reply is trimmed of trailing whitespace and becomes the rejection
reason (proxsmtpd.c:707-711). -/
def rcptLoop : List (List Char) → List (Option (List Char)) → RcptOutcome
  | [], _ => .accepted []
  | tok :: toks, reps =>
    match smtp_command (some r250) (reps.headD none) with
    | (0, _) =>
      (match rcptLoop toks reps.tail with
       | .accepted s => .accepted (rcptLine tok :: s)
       | .rejected s r => .rejected (rcptLine tok :: s) r
       | .infra s => .infra (rcptLine tok :: s))
    | (_, some rep) => .rejected [rcptLine tok] (trim_end rep)
    | (_, none) => .infra [rcptLine tok]

/-- The recipient tokens of a context, split on newline by the strsep loop
(proxsmtpd.c:698-700). -/
def recipientsTokens (recips : List Char) : List (List Char) := splitNl recips

/-- Join tokens with newlines: the wire form of the framework's
newline-separated `recipients` field. -/
def joinNl : List (List Char) → List Char
  | [] => []
  | [t] => t
  | t :: rest => t ++ '\n' :: joinNl rest

/-- What `process_smtp_command` returns for each RCPT loop outcome: a clean
rejection returns 0 (proxsmtpd.c:711), an uncaptured failure returns -1
(proxsmtpd.c:705), and on full acceptance the function continues past the
loop. -/
def rcptRet : RcptOutcome → Option Int
  | .accepted _ => none
  | .rejected _ _ => some 0
  | .infra _ => some (-1)

/-! Helper lemmas. -/

/-- The chunked read/send loop of proxsmtpd.c:728-731 reassembles the cache
file byte-exactly. -/
theorem sendCache_eq (file : List Char) : sendCache file = file := by
  rw [sendCache]
  split
  · exact (by assumption : file = []).symm
  · rw [sendCache_eq (file.drop 4096), List.take_append_drop]
termination_by file.length
decreasing_by
  simp only [List.length_drop]
  have := List.length_pos.mpr (by assumption : file ≠ [])
  omega

/-- Size discipline of `strlcat` at capacity 256: a destination that fits in
the buffer (at most 255 payload bytes) still fits after the append. -/
theorem strlcat_length_le (dst src : List Char) (h : dst.length ≤ 255) :
    (strlcat dst src 256).length ≤ 255 := by
  unfold strlcat
  split
  · exact h
  · simp only [List.length_append, List.length_take]
    omega

/-- One fold of `buffer_reject_message` keeps the accumulator within the
255-byte payload bound. -/
theorem buffer_reject_message_length_le (data buf : List Char) (h : buf.length ≤ 255) :
    (buffer_reject_message data buf).length ≤ 255 := by
  have hbody : (brmBody data buf).length ≤ 255 := by
    unfold brmBody
    split
    · split
      · split
        · exact strlcat_length_le _ _ (by simp)
        · exact strlcat_length_le _ _ h
      · exact strlcat_length_le _ _ (by simp)
    · exact h
  unfold buffer_reject_message
  split
  · exact strlcat_length_le _ _ hbody
  · exact hbody

/-- Folding any chunk sequence from a within-bounds accumulator stays within
bounds. -/
theorem brmFold_go_length (chunks : List (List Char)) (b : List Char) (h : b.length ≤ 255) :
    (chunks.foldl (fun b d => buffer_reject_message d b) b).length ≤ 255 := by
  induction chunks generalizing b with
  | nil => simpa using h
  | cons c cs ih => exact ih _ (buffer_reject_message_length_le c b h)

/-! Claim theorems. -/

/-- C2: for a reaped pipe- or file-mode child, a signal death fails the
dispatch with `status=FILTER-ERROR`; exit code 0 commits the body via
`sp_done_data` with the configured header and logs `status=FILTERED`; a
non-zero exit finalizes the rejection-reason buffer, fails the DATA command
with that reason and logs it as the status. -/
theorem C2_exit_translation :
    (∀ (sig : Nat) (ebuf : List Char) (header : Option (List Char)),
      dispatch_exit (.signaled sig) ebuf header true = ⟨-1, none, none, strFILTER_ERROR⟩) ∧
    (∀ (ebuf : List Char) (header : Option (List Char)),
      dispatch_exit (.exited 0) ebuf header true = ⟨0, some header, none, strFILTERED⟩) ∧
    (∀ (c : Nat) (ebuf : List Char) (header : Option (List Char)),
      dispatch_exit (.exited (c + 1)) ebuf header true =
        ⟨0, none, some (final_reject_message ebuf), final_reject_message ebuf⟩) := by
  refine ⟨fun _ _ _ => rfl, fun _ _ => rfl, fun c ebuf header => ?_⟩
  simp [dispatch_exit, WIFEXITED, WEXITSTATUS]

/-- C5: with a filter type other than reject and no filter command
configured, `cb_check_data` accepts the DATA command, logs a warning, spools
the body to cache and commits delivery with the configured header, so the
delivered body is the received body with the header inserted. -/
theorem C5_bypass :
    ∀ (rr : List Char) (tmo : Nat) (hdr : Option (List Char)) (fo : Bool) (body : List Char),
      cb_check_data ⟨.pipe, none, rr, tmo, hdr⟩ fo true body =
        .bypass true true (insertHeader hdr body) ∧
      cb_check_data ⟨.file, none, rr, tmo, hdr⟩ fo true body =
        .bypass true true (insertHeader hdr body) ∧
      cb_check_data ⟨.smtp, none, rr, tmo, hdr⟩ fo true body =
        .bypass true true (insertHeader hdr body) :=
  fun _ _ _ _ _ => ⟨rfl, rfl, rfl⟩

/-- C6: in reject mode both callbacks log `status=REJECTED` and fail the
pending command with the configured reject response, returning 0 when the
failure reply is delivered and -1 when delivering it fails; with any other
filter type `cb_check_pre` returns 1 (continue). -/
theorem C6_reject_paths :
    ∀ (cmd : Option (List Char)) (rr : List Char) (tmo : Nat) (hdr : Option (List Char))
      (so : Bool) (body : List Char) (fo : Bool),
      cb_check_pre ⟨.reject, cmd, rr, tmo, hdr⟩ true = ⟨0, some strREJECTED, some rr⟩ ∧
      cb_check_pre ⟨.reject, cmd, rr, tmo, hdr⟩ false = ⟨-1, some strREJECTED, some rr⟩ ∧
      cb_check_data ⟨.reject, cmd, rr, tmo, hdr⟩ true so body =
        .rejectPath 0 strREJECTED rr ∧
      cb_check_data ⟨.reject, cmd, rr, tmo, hdr⟩ false so body =
        .rejectPath (-1) strREJECTED rr ∧
      cb_check_pre ⟨.pipe, cmd, rr, tmo, hdr⟩ fo = ⟨1, none, none⟩ ∧
      cb_check_pre ⟨.file, cmd, rr, tmo, hdr⟩ fo = ⟨1, none, none⟩ ∧
      cb_check_pre ⟨.smtp, cmd, rr, tmo, hdr⟩ fo = ⟨1, none, none⟩ :=
  fun _ _ _ _ _ _ _ => ⟨rfl, rfl, rfl, rfl, rfl, rfl, rfl⟩

/-- C7: in the pipe pump's input path, a write failing with EPIPE drains the
framework source to completion and closes the input descriptor with no
error; EAGAIN and EINTR leave the state unchanged so the loop retries; any
other write error fails the dispatch. -/
theorem C7_write_error_policy :
    ∀ (src : List (List Char)) (c : Char) (cs : List Char) (o : Bool) (ic : Nat),
      input_step ⟨src, c :: cs, o, ic⟩ .epipe = some ⟨[], c :: cs, false, ic⟩ ∧
      input_step ⟨src, c :: cs, o, ic⟩ .eagain = some ⟨src, c :: cs, o, ic⟩ ∧
      input_step ⟨src, c :: cs, o, ic⟩ .eintr = some ⟨src, c :: cs, o, ic⟩ ∧
      input_step ⟨src, c :: cs, o, ic⟩ .otherErr = none :=
  fun _ _ _ _ _ => ⟨rfl, rfl, rfl, rfl⟩

/-- C8: calling `wait_process` on an already-reaped pid returns success with
a zero exit status, both when the non-blocking wait reports ECHILD/ESRCH and
when it reports no change but the zero-signal kill probe reports no such
process; the `t + 1` second timeout makes the poll budget positive. -/
theorem C8_reaper_already_reaped :
    ∀ (t : Nat) (polls : List PollRes),
      wait_process (wait_budget (t + 1)) (.errChild :: polls) = .ok (.exited 0) ∧
      wait_process (wait_budget (t + 1)) (.noChange false :: polls) = .ok (.exited 0) := by
  intro t polls
  obtain ⟨m, hm⟩ : ∃ m, wait_budget (t + 1) = m + 1 :=
    ⟨t * 50 + 49, by unfold wait_budget; omega⟩
  rw [hm]
  exact ⟨rfl, rfl⟩

/-- C9: the code bug at the failing input.  The guard structure of
`buffer_reject_message` reaches the test `buf[strlen(buf) - 1] == '\n'`
(proxsmtpd.c:1055) on the very first stderr chunk `"abc"` while the
accumulator is still the zeroed buffer, so the read at index
`strlen(buf) - 1` happens with `strlen(buf) = 0`, before the buffer. -/
theorem C9_oob_read_on_first_chunk :
    brm_reads_before_buf ['a', 'b', 'c'] ebufInit = true ∧ ebufInit = [] := by
  exact ⟨by decide, rfl⟩

/-- C10: the code bug at the failing input.  `smtp_command` calls recv with
a count equal to the full 4096-byte buffer, so a 4096-byte reply makes recv
return 4096 and the store `buf[t] = '\0'` (proxsmtpd.c:631) lands at index
4096, one past the end of the buffer. -/
theorem C10_terminator_out_of_bounds :
    null_term_write_index 4096 = smtp_reply_bufsize ∧
    term_write_in_bounds 4096 = false := by
  exact ⟨by decide, by decide⟩

/-- C1 (counterexample): the terminator sent after the streamed cache file
is `".\r\n"` (proxsmtpd.c:733), not `"\r\n.\r\n"`; for the one-byte cache
file `"X"` the bytes put on the socket after the 354 acknowledgement are not
the cache bytes followed by `"\r\n.\r\n"`. -/
theorem C1_counterexample : smtpDataPhase ['X'] ≠ ['X'] ++ crlfDotCrlf := by
  unfold smtpDataPhase
  rw [sendCache_eq]
  decide

/-- C1 (amended): in smtp filter mode, after the 354 acknowledgement of
DATA the core streams the cache file verbatim and then sends `".\r\n"`, so
the bytes sent between the acknowledgement and that terminator are exactly
the cache file's bytes; when the cache file ends with CRLF the wire stream
consequently ends with the full `"\r\n.\r\n"` sequence. -/
theorem C1_amended_data_stream :
    (∀ file : List Char, smtpDataPhase file = file ++ dotTerminator) ∧
    (∀ p : List Char, smtpDataPhase (p ++ crlf) = p ++ crlfDotCrlf) := by
  constructor
  · intro file
    unfold smtpDataPhase
    rw [sendCache_eq]
  · intro p
    unfold smtpDataPhase
    rw [sendCache_eq]
    simp [crlf, crlfDotCrlf, dotTerminator]

/-! Helper lemmas for the single-line computation of the accumulator. -/

/-- A list of non-matching characters has an empty `takeWhile`. -/
theorem takeWhile_eq_nil_of_none {p : Char → Bool} (m : List Char)
    (h : ∀ c ∈ m, p c = false) : m.takeWhile p = [] := by
  cases m with
  | nil => rfl
  | cons x xs => simp [List.takeWhile_cons, h x (by simp)]

/-- A list of non-matching characters is untouched by `dropWhile`. -/
theorem dropWhile_eq_self_of_none {p : Char → Bool} (m : List Char)
    (h : ∀ c ∈ m, p c = false) : m.dropWhile p = m := by
  cases m with
  | nil => rfl
  | cons x xs => simp [List.dropWhile_cons, h x (by simp)]

/-- A non-whitespace character is not a newline. -/
theorem ne_nl_of_not_space {c : Char} (h : isspaceC c = false) : (c == '\n') = false := by
  cases hc : c == '\n' with
  | false => rfl
  | true =>
    have : c = '\n' := by exact beq_iff_eq.mp hc
    subst this
    simp [isspaceC] at h

/-- `strrchr` finds nothing in a newline-free list. -/
theorem strrchrNl_eq_none (m : List Char) (h : ∀ c ∈ m, (c == '\n') = false) :
    strrchrNl m = none := by
  induction m with
  | nil => rfl
  | cons x xs ih =>
    simp only [strrchrNl, ih (fun c hc => h c (by simp [hc]))]
    simp [h x (by simp)]

/-- The trailing-whitespace walk over a simple line plus newline steps over
exactly the newline. -/
theorem wsSuffix_simple (l : List Char) (hws : ∀ c ∈ l, isspaceC c = false) :
    wsSuffix (l ++ ['\n']) = ['\n'] := by
  unfold wsSuffix
  rw [List.reverse_append]
  simp only [List.reverse_cons, List.reverse_nil, List.nil_append, List.singleton_append,
    List.takeWhile_cons]
  have h1 : isspaceC '\n' = true := by decide
  rw [h1]
  simp [takeWhile_eq_nil_of_none l.reverse (fun c hc => hws c (List.mem_reverse.mp hc))]

/-- Folding a single chunk that is one complete, whitespace-free,
capacity-fitting line into the empty accumulator yields the line followed by
its completion newline. -/
theorem brm_single_line (l : List Char) (hne : l ≠ []) (hws : ∀ c ∈ l, isspaceC c = false)
    (hlen : l.length ≤ 254) :
    buffer_reject_message (l ++ ['\n']) ebufInit = l ++ ['\n'] := by
  have hsfx := wsSuffix_simple l hws
  have hnl : sawNewline (l ++ ['\n']) = true := by
    unfold sawNewline
    rw [hsfx]
    decide
  have hk : (l ++ ['\n']).length - (wsSuffix (l ++ ['\n'])).length = l.length := by
    rw [hsfx]
    simp
  have htake : (l ++ ['\n']).take l.length = l := by
    simp [List.take_left]
  have hchr : strrchrNl l = none :=
    strrchrNl_eq_none l (fun c hc => ne_nl_of_not_space (hws c hc))
  have hts : trim_start l = l := dropWhile_eq_self_of_none l hws
  have hpos : 0 < l.length := List.length_pos.mpr hne
  have hcat1 : strlcat [] l 256 = l := by
    have h255 : (256 : Nat) - List.length ([] : List Char) - 1 = 255 := by simp
    unfold strlcat
    rw [if_neg (by simp), h255, List.take_of_length_le (by omega), List.nil_append]
  have hbody : brmBody (l ++ ['\n']) ebufInit = l := by
    unfold brmBody ebufInit
    rw [hk, hnl]
    simp only [if_true, htake, hchr, hpos, if_pos]
    rw [hts]
    simpa using hcat1
  unfold buffer_reject_message
  rw [hnl]
  simp only [if_true]
  rw [hbody]
  unfold strlcat
  rw [if_neg (by omega : ¬ (256 ≤ l.length))]
  rw [List.take_of_length_le (by simp; omega)]

/-- C3 (counterexample): the accumulator does not hold the last non-empty
line of the stream.  Folding the single chunk `" x\n"` into the zeroed
accumulator yields `"x\n"`: the leading space of the line `" x"` is trimmed
(proxsmtpd.c:1049), so the accumulator holds neither the line `" x"` nor
that line with its completing newline. -/
theorem C3_counterexample :
    brmFold [[' ', 'x', '\n']] = ['x', '\n'] ∧
    lastCompletedNonEmptyLine [' ', 'x', '\n'] = some [' ', 'x'] ∧
    brmFold [[' ', 'x', '\n']] ≠ [' ', 'x'] ∧
    brmFold [[' ', 'x', '\n']] ≠ [' ', 'x', '\n'] := by
  refine ⟨by decide, by decide, by decide, by decide⟩

/-- C3 (amended): for every sequence of null-terminated stderr chunks folded
by `buffer_reject_message` into the 256-byte accumulator, the accumulator is
always null-terminated and holds at most 255 bytes of payload; its content
is a per-chunk leading-whitespace-trimmed, capacity-truncated rendering of
the last line rather than the verbatim last non-empty line — for a chunk
that is a single complete whitespace-free line fitting the capacity, the
accumulator holds exactly that line with its completing newline. -/
theorem C3_amended :
    (∀ chunks : List (List Char), (brmFold chunks).length ≤ 255) ∧
    (∀ l : List Char, l ≠ [] → (∀ c ∈ l, isspaceC c = false) → l.length ≤ 254 →
      buffer_reject_message (l ++ ['\n']) ebufInit = l ++ ['\n']) := by
  constructor
  · intro chunks
    exact brmFold_go_length chunks [] (by simp)
  · exact brm_single_line

/-- C3 (witness): the amended theorem applied at the chunk sequence
`["virus\n"]`. -/
theorem C3_witness :
    (brmFold [['v', 'i', 'r', 'u', 's', '\n']]).length ≤ 255 ∧
    buffer_reject_message (['v', 'i', 'r', 'u', 's'] ++ ['\n']) ebufInit =
      ['v', 'i', 'r', 'u', 's'] ++ ['\n'] :=
  ⟨C3_amended.1 [['v', 'i', 'r', 'u', 's', '\n']],
   C3_amended.2 ['v', 'i', 'r', 'u', 's'] (by decide) (by decide) (by decide)⟩

/-! Helper lemmas for the RCPT loop. -/

/-- A newline-free token splits as itself. -/
theorem splitNl_no_nl (t : List Char) (h : '\n' ∉ t) : splitNl t = [t] := by
  induction t with
  | nil => rfl
  | cons c cs ih =>
    have hc : (c == '\n') = false := by
      cases hb : c == '\n' with
      | false => rfl
      | true => exact absurd (by simp [beq_iff_eq.mp hb]) h
    simp [splitNl, hc, ih (fun hm => h (by simp [hm]))]

/-- Splitting distributes over a newline separator after a newline-free
token. -/
theorem splitNl_append_nl (t m : List Char) (h : '\n' ∉ t) :
    splitNl (t ++ '\n' :: m) = t :: splitNl m := by
  induction t with
  | nil => simp [splitNl]
  | cons c cs ih =>
    have hc : (c == '\n') = false := by
      cases hb : c == '\n' with
      | false => rfl
      | true => exact absurd (by simp [beq_iff_eq.mp hb]) h
    have ih' := ih (fun hm => h (by simp [hm]))
    simp [splitNl, hc, ih']

/-- The strsep split recovers the tokens from their newline-joined wire
form, provided no token contains a newline. -/
theorem splitNl_joinNl (ts : List (List Char)) (hne : ts ≠ [])
    (h : ∀ t ∈ ts, '\n' ∉ t) : splitNl (joinNl ts) = ts := by
  induction ts with
  | nil => exact absurd rfl hne
  | cons t rest ih =>
    cases rest with
    | nil => exact splitNl_no_nl t (h t (by simp))
    | cons u us =>
      have hjoin : joinNl (t :: u :: us) = t ++ '\n' :: joinNl (u :: us) := rfl
      rw [hjoin, splitNl_append_nl t _ (h t (by simp)),
        ih (by simp) (fun x hx => h x (by simp [hx]))]

/-- A 250 reply lets the RCPT loop continue past the current token. -/
theorem rcptLoop_accept_aux (toks : List (List Char)) :
    ∀ good : List (List Char), toks.length = good.length →
      (∀ g ∈ good, respMatches r250 g = true) →
      rcptLoop toks (good.map some) = .accepted (toks.map rcptLine) := by
  induction toks with
  | nil => intro good _ _; rfl
  | cons tok toks ih =>
    intro good hlen hgood
    cases good with
    | nil => simp at hlen
    | cons g good' =>
      have hg := hgood g (by simp)
      have ih' := ih good' (by simpa using hlen) (fun x hx => hgood x (by simp [hx]))
      simp [rcptLoop, smtp_command, hg, ih']

/-- After a run of accepted recipients, a captured non-250 reply stops the
loop with the trimmed reply as the rejection reason. -/
theorem rcptLoop_reject_aux (pre : List (List Char)) :
    ∀ good : List (List Char), pre.length = good.length →
      (∀ g ∈ good, respMatches r250 g = true) →
      ∀ (tok : List Char) (post : List (List Char)) (bad : List Char)
        (rest : List (Option (List Char))),
        respMatches r250 bad = false →
        rcptLoop (pre ++ tok :: post) (good.map some ++ some bad :: rest) =
          .rejected ((pre ++ [tok]).map rcptLine) (trim_end bad) := by
  induction pre with
  | nil =>
    intro good hlen hgood tok post bad rest hbad
    have hg : good = [] := by
      cases good with
      | nil => rfl
      | cons _ _ => simp at hlen
    subst hg
    simp [rcptLoop, smtp_command, hbad]
  | cons p pre ih =>
    intro good hlen hgood tok post bad rest hbad
    cases good with
    | nil => simp at hlen
    | cons g good' =>
      have hg : respMatches r250 g = true := hgood g (by simp)
      have ih' := ih good' (by simpa using hlen) (fun x hx => hgood x (by simp [hx]))
        tok post bad rest hbad
      simp [rcptLoop, smtp_command, hg, ih']

/-- C4: in smtp filter mode an RCPT TO line is sent for each recipient
obtained by splitting the recipients string on newline (all of them when
every reply is a 250); when a downstream reply is captured and does not
start with 250, processing stops after the RCPT lines sent so far, the reply
is trimmed of trailing whitespace, the DATA command is failed with it as the
reason, it is logged as the status, and the dispatch returns success (0). -/
theorem C4_rcpt_rejection :
    (∀ ts : List (List Char), ts ≠ [] → (∀ t ∈ ts, '\n' ∉ t) →
      recipientsTokens (joinNl ts) = ts) ∧
    (∀ toks good : List (List Char), toks.length = good.length →
      (∀ g ∈ good, respMatches r250 g = true) →
      rcptLoop toks (good.map some) = .accepted (toks.map rcptLine)) ∧
    (∀ (pre post : List (List Char)) (tok : List Char) (good : List (List Char))
        (bad : List Char) (rest : List (Option (List Char))),
      pre.length = good.length →
      (∀ g ∈ good, respMatches r250 g = true) →
      respMatches r250 bad = false →
      rcptLoop (pre ++ tok :: post) (good.map some ++ some bad :: rest) =
        .rejected ((pre ++ [tok]).map rcptLine) (trim_end bad) ∧
      rcptRet (rcptLoop (pre ++ tok :: post) (good.map some ++ some bad :: rest)) =
        some 0) := by
  refine ⟨splitNl_joinNl, rcptLoop_accept_aux, ?_⟩
  intro pre post tok good bad rest hlen hgood hbad
  have h := rcptLoop_reject_aux pre good hlen hgood tok post bad rest hbad
  exact ⟨h, by rw [h]; rfl⟩

/-- C4 (witness): two recipients `a@x` and `b@x`; the downstream accepts the
first with 250 and answers `550 User unknown` to the second, so the loop
stops after both RCPT lines with the trimmed 550 reply as the reason and the
dispatch reports success. -/
theorem C4_witness :
    recipientsTokens (joinNl [("a@x").toList, ("b@x").toList]) =
      [("a@x").toList, ("b@x").toList] ∧
    rcptLoop [("a@x").toList] [some (("250 ok").toList)] =
      .accepted [rcptLine (("a@x").toList)] ∧
    rcptLoop ([("a@x").toList] ++ ("b@x").toList :: [])
        ([("250 ok").toList].map some ++ some (("550 User unknown\r\n").toList) :: []) =
      .rejected (([("a@x").toList] ++ [("b@x").toList]).map rcptLine)
        (trim_end (("550 User unknown\r\n").toList)) :=
  ⟨C4_rcpt_rejection.1 [("a@x").toList, ("b@x").toList] (by decide) (by decide),
   C4_rcpt_rejection.2.1 [("a@x").toList] [("250 ok").toList] rfl (by decide),
   (C4_rcpt_rejection.2.2 [("a@x").toList] [] (("b@x").toList) [("250 ok").toList]
     (("550 User unknown\r\n").toList) [] rfl (by decide) (by decide)).1⟩
